import Mathlib

/-!
Shallow embedding of the Eventara backend (src/index.js and the mongoose
Event model in src/unnamed/part_000).

Dates are modelled as integer timestamps.  Mongo document identifiers are
modelled as strings.  Each Express route handler becomes a pure function on
an `Event` value (or a list of events for the database-level routes),
returning `Except ApiError` where the handler can answer a non-2xx status.

HTTP error statuses are mapped as follows:
  400 -> ApiError.badRequest   (spec kinds InvalidInput / AlreadyMember / EventFull)
  403 -> ApiError.notAuthor403 (spec kind NotAuthorized)
  404 -> ApiError.notFound     (spec kind NotFound)
  500 -> ApiError.serverError  (generic failure, e.g. mongoose save rejection)
-/

deriving instance DecidableEq for Except

namespace Eventara

/-- The caller identity provided by the auth middleware: `req.auth.userId`,
`req.auth.user?.name`, `req.auth.user?.email`. -/
structure Caller where
  userId : String
  name : Option String
  email : Option String
deriving Repr, DecidableEq

/-- participantSchema in the mongoose model. -/
structure Participant where
  userId : String
  userName : String
  userEmail : String
  registeredAt : Int
deriving Repr, DecidableEq

/-- sessionSchema in the mongoose model; `sid` is the subdocument `_id`. -/
structure Session where
  sid : String
  title : String
  description : Option String
  startTime : Int
  endTime : Int
  speaker : String
  room : String
  tags : List String
deriving Repr, DecidableEq

/-- eventSchema in the mongoose model; `eid` is the document `_id`. -/
structure Event where
  eid : String
  title : String
  description : String
  startDate : Int
  endDate : Int
  location : String
  capacity : Int
  price : Int
  image : String
  organizerId : String
  organizerName : String
  organizerEmail : String
  sessions : List Session
  participants : List Participant
  isPublic : Bool
  tags : List String
  createdAt : Int
  updatedAt : Int
deriving Repr, DecidableEq

/-- The non-2xx responses the route handlers produce, by HTTP status. -/
inductive ApiError where
  | badRequest (msg : String)
  | notAuthor403 (msg : String)
  | notFound (msg : String)
  | serverError (msg : String)
deriving Repr, DecidableEq

/-- POST /api/events/:id/join, after the event has been fetched.
Checks already-joined first, then `participants.length >= capacity`
(note: the source has no `capacity > 0` guard), then pushes the new
participant and saves; the pre-save hook sets `updatedAt`.  Returns the
new participant count. -/
def joinEvent (event : Event) (caller : Caller) (now : Int) :
    Except ApiError (Event × Nat) :=
  if event.participants.any (fun p => p.userId == caller.userId) then
    .error (.badRequest "Already joined this event")
  else if event.capacity ≤ (event.participants.length : Int) then
    .error (.badRequest "Event is full")
  else
    let saved : Event :=
      { event with
        participants := event.participants ++
          [{ userId := caller.userId,
             userName := caller.name.getD "Anonymous",
             userEmail := caller.email.getD "",
             registeredAt := now }],
        updatedAt := now }
    .ok (saved, saved.participants.length)

/-- POST /api/events/:id/leave, after the event has been fetched.
Filters out every participant with the userId of the caller, saves, and
reports the resulting count.  There is no error branch. -/
def leaveEvent (event : Event) (caller : Caller) (now : Int) : Event × Nat :=
  let saved : Event :=
    { event with
      participants := event.participants.filter (fun p => !(p.userId == caller.userId)),
      updatedAt := now }
  (saved, saved.participants.length)

/-- Embedding of `Event.findById`: first stored event whose `_id` matches. -/
def findById (db : List Event) (id : String) : Option Event :=
  db.find? (fun e => e.eid == id)

/-- Removal of the (first) event with the given `_id`, as performed by
`Event.findByIdAndDelete`. -/
def removeById (id : String) : List Event → List Event
  | [] => []
  | e :: rest => if e.eid == id then rest else e :: removeById id rest

/-- DELETE /api/events/:id.  The handler never consults `req.auth` beyond
the auth middleware: the `caller` argument is unused, mirroring the
absence of any ownership filter in `findByIdAndDelete`. -/
def deleteEvent (db : List Event) (id : String) (caller : Caller) :
    Except ApiError (List Event × Event) :=
  match findById db id with
  | none => .error (.notFound "Event not found")
  | some e => .ok (removeById id db, e)

/-- POST /api/events/:id/leave at the database level (fetch, then leave). -/
def leaveEventDb (db : List Event) (id : String) (caller : Caller) (now : Int) :
    Except ApiError (Event × Nat) :=
  match findById db id with
  | none => .error (.notFound "Event not found")
  | some e => .ok (leaveEvent e caller now)

/-- The update payload of PUT /api/events/:id.  The handler spreads the raw
request body into `findByIdAndUpdate`, so every schema path is settable,
including `organizerId`; a field is `none` when absent from the body. -/
structure EventPatch where
  title : Option String := none
  description : Option String := none
  startDate : Option Int := none
  endDate : Option Int := none
  location : Option String := none
  capacity : Option Int := none
  price : Option Int := none
  image : Option String := none
  organizerId : Option String := none
  organizerName : Option String := none
  organizerEmail : Option String := none
  isPublic : Option Bool := none
  tags : Option (List String) := none
deriving Repr, DecidableEq

/-- The `$set` document `\x7b ...req.body, updatedAt: Date.now() \x7d` applied
by `findByIdAndUpdate`: present fields overwrite, absent fields stay. -/
def applyEventPatch (e : Event) (p : EventPatch) (now : Int) : Event :=
  { e with
    title := p.title.getD e.title,
    description := p.description.getD e.description,
    startDate := p.startDate.getD e.startDate,
    endDate := p.endDate.getD e.endDate,
    location := p.location.getD e.location,
    capacity := p.capacity.getD e.capacity,
    price := p.price.getD e.price,
    image := p.image.getD e.image,
    organizerId := p.organizerId.getD e.organizerId,
    organizerName := p.organizerName.getD e.organizerName,
    organizerEmail := p.organizerEmail.getD e.organizerEmail,
    isPublic := p.isPublic.getD e.isPublic,
    tags := p.tags.getD e.tags,
    updatedAt := now }

/-- PUT /api/events/:id, after the event has been fetched.  The route first
runs `findOne` on `_id` plus `organizerId`, answering 404 on a miss, then
applies the body with `runValidators: true` (an explicit empty `title`
violates the schema rule `required` and surfaces as a 500). -/
def updateEvent (event : Event) (caller : Caller) (p : EventPatch) (now : Int) :
    Except ApiError Event :=
  if event.organizerId == caller.userId then
    if p.title == some "" then .error (.serverError "Failed to update event")
    else .ok (applyEventPatch event p now)
  else .error (.notFound "Event not found or not authorized")

/-- The fields POST /api/events/:eventId/sessions destructures from the raw
body; `startTime`/`endTime` are `none` when the body value is absent or
`new Date(...)` yields an invalid date that mongoose cannot cast. -/
structure SessionInput where
  title : Option String := none
  description : Option String := none
  startTime : Option Int := none
  endTime : Option Int := none
  speaker : Option String := none
  room : Option String := none
  tags : Option (List String) := none
deriving Repr, DecidableEq

/-- What `event.save()` demands of the pushed session: mongoose `required`
on `title` (absent or empty string fails), and castable `startTime` and
`endTime` dates.  There is no ordering constraint between the two dates. -/
def sessionFieldsOk (i : SessionInput) : Bool :=
  (match i.title with
   | some t => !(t == "")
   | none => false)
    && i.startTime.isSome && i.endTime.isSome

/-- POST /api/events/:eventId/sessions, after the event has been fetched.
Checks ownership (403 on failure), builds the session verbatim from the
body with the schema defaults, pushes it and saves; a save rejection is
caught and answered as a 500.  `freshId` is the subdocument `_id`
mongoose assigns. -/
def addSession (event : Event) (caller : Caller) (i : SessionInput)
    (freshId : String) (now : Int) : Except ApiError (Event × Session) :=
  if !(event.organizerId == caller.userId) then
    .error (.notAuthor403 "Not authorized to modify this event")
  else if sessionFieldsOk i then
    let s : Session :=
      { sid := freshId,
        title := i.title.getD "",
        description := i.description,
        startTime := i.startTime.getD 0,
        endTime := i.endTime.getD 0,
        speaker := i.speaker.getD "TBD",
        room := i.room.getD "TBD",
        tags := i.tags.getD [] }
    .ok ({ event with sessions := event.sessions ++ [s], updatedAt := now }, s)
  else .error (.serverError "Failed to create session")

/-- The update payload of PUT /api/sessions/:id.  The handler destructures
`eventId` out of the body and `Object.assign`s the rest onto the
subdocument, so an `_id` field in the body (`sid` here) is NOT stripped
and overwrites the identifier of the session. -/
structure SessionPatch where
  sid : Option String := none
  title : Option String := none
  description : Option String := none
  startTime : Option Int := none
  endTime : Option Int := none
  speaker : Option String := none
  room : Option String := none
  tags : Option (List String) := none
deriving Repr, DecidableEq

/-- Embedding of `Object.assign(session, updateData)`: present fields overwrite. -/
def mergeSession (s : Session) (p : SessionPatch) : Session :=
  { sid := p.sid.getD s.sid,
    title := p.title.getD s.title,
    description := match p.description with
      | some d => some d
      | none => s.description,
    startTime := p.startTime.getD s.startTime,
    endTime := p.endTime.getD s.endTime,
    speaker := p.speaker.getD s.speaker,
    room := p.room.getD s.room,
    tags := p.tags.getD s.tags }

/-- Embedding of `event.sessions.id(sid)`: first session with the given `_id`. -/
def findSession (event : Event) (sid : String) : Option Session :=
  event.sessions.find? (fun s => s.sid == sid)

/-- In-place mutation of the subdocument found by `.id(sid)`: the first
session with that `_id` is replaced by the merged value. -/
def replaceFirstSession (sid : String) (merged : Session) :
    List Session → List Session
  | [] => []
  | s :: rest =>
      if s.sid == sid then merged :: rest
      else s :: replaceFirstSession sid merged rest

/-- Embedding of `.id(sid).remove()`: drop the first session with that `_id`. -/
def removeFirstSession (sid : String) : List Session → List Session
  | [] => []
  | s :: rest => if s.sid == sid then rest else s :: removeFirstSession sid rest

/-- PUT /api/sessions/:id.  `findOne` filters on both `sessions._id` and
`organizerId`, so a miss on either answers the combined 404; then the
session is re-looked-up, merged, and the event saved (an empty merged
`title` makes the save reject, caught as a 500). -/
def updateSession (event : Event) (caller : Caller) (sid : String)
    (p : SessionPatch) (now : Int) : Except ApiError (Event × Session) :=
  if !(event.organizerId == caller.userId && (findSession event sid).isSome) then
    .error (.notFound "Session not found or not authorized")
  else
    match findSession event sid with
    | none => .error (.notFound "Session not found")
    | some s =>
      if (mergeSession s p).title == "" then
        .error (.serverError "Failed to update session")
      else
        .ok ({ event with
                sessions := replaceFirstSession sid (mergeSession s p) event.sessions,
                updatedAt := now },
             mergeSession s p)

/-- DELETE /api/sessions/:id, with the same combined `findOne` gate. -/
def removeSession (event : Event) (caller : Caller) (sid : String) (now : Int) :
    Except ApiError Event :=
  if !(event.organizerId == caller.userId && (findSession event sid).isSome) then
    .error (.notFound "Session not found or not authorized")
  else
    .ok { event with
          sessions := removeFirstSession sid event.sessions,
          updatedAt := now }

/-- The filter of GET /api/events/public: `isPublic: true` and
`organizerId: \x7b $ne: callerId \x7d`. -/
def publicMatch (callerId : String) (e : Event) : Bool :=
  e.isPublic && !(e.organizerId == callerId)

/-- Stable insertion for `.sort(\x7b createdAt: -1 \x7d)` (descending). -/
def insertByCreatedDesc (e : Event) : List Event → List Event
  | [] => [e]
  | x :: xs =>
      if x.createdAt < e.createdAt then e :: x :: xs
      else x :: insertByCreatedDesc e xs

/-- Stable sort of events by `createdAt`, newest first. -/
def sortByCreatedDesc : List Event → List Event
  | [] => []
  | x :: xs => insertByCreatedDesc x (sortByCreatedDesc xs)

/-- GET /api/events/public: filter, sort newest-created first, `.limit(20)`. -/
def listPublicEvents (db : List Event) (callerId : String) : List Event :=
  (sortByCreatedDesc (db.filter (publicMatch callerId))).take 20

/-- Sequential composition of joins (one POST /api/events/:id/join per
caller, re-reading the event each time), stopping at the first error. -/
def joinAll (now : Int) : List Caller → Event → Except ApiError Event
  | [], e => .ok e
  | c :: cs, e =>
      match joinEvent e c now with
      | .error err => .error err
      | .ok (e', _) => joinAll now cs e'

/-! Concrete values used by the witnesses and counterexamples below. -/

/-- The organizer identity (`req.auth.userId = "org"`). -/
def orgCaller : Caller := { userId := "org", name := some "Org", email := none }

/-- A first non-organizer identity. -/
def callerA : Caller := { userId := "userA", name := none, email := none }

/-- A second non-organizer identity. -/
def callerB : Caller := { userId := "userB", name := none, email := none }

/-- An event created with the schema defaults: capacity 0, no sessions,
no participants. -/
def baseEvent : Event :=
  { eid := "e1", title := "Launch", description := "",
    startDate := 0, endDate := 10, location := "TBD",
    capacity := 0, price := 0, image := "",
    organizerId := "org", organizerName := "Org", organizerEmail := "",
    sessions := [], participants := [], isPublic := false, tags := [],
    createdAt := 0, updatedAt := 0 }

/-- A stored session with `startTime = 10` and `endTime = 20`. -/
def talkSession : Session :=
  { sid := "s1", title := "Talk", description := none,
    startTime := 10, endTime := 20, speaker := "TBD", room := "TBD", tags := [] }

/-- Variant of `baseEvent` with one stored session. -/
def sessionEvent : Event := { baseEvent with sessions := [talkSession] }

/-- Variant of `baseEvent` with capacity 2 and one participant, userA. -/
def halfFullEvent : Event :=
  { baseEvent with
    capacity := 2,
    participants := [{ userId := "userA", userName := "Anonymous",
                       userEmail := "", registeredAt := 0 }] }

/-- Variant of `baseEvent` with capacity 1. -/
def capOneEvent : Event := { baseEvent with capacity := 1 }

/-- 21 public events owned by "org", pairwise distinct `createdAt`. -/
def publicDb : List Event :=
  (List.range 21).map fun i =>
    { baseEvent with eid := toString i, isPublic := true, createdAt := (i : Int) }

/-! Helper lemmas. -/

/-- Helper: `removeById` drops exactly one element when `findById` hits. -/
lemma removeById_length (db : List Event) (id : String) (e : Event)
    (h : findById db id = some e) :
    (removeById id db).length + 1 = db.length := by
  induction db with
  | nil => simp [findById] at h
  | cons x xs ih =>
    cases hx : (x.eid == id) with
    | true => simp [removeById, hx]
    | false =>
      have h' : findById xs id = some e := by
        simpa [findById, List.find?_cons, hx] using h
      simp [removeById, hx, ih h']

/-- Inserting adds one element. -/
lemma length_insertByCreatedDesc (e : Event) (l : List Event) :
    (insertByCreatedDesc e l).length = l.length + 1 := by
  induction l with
  | nil => rfl
  | cons x xs ih =>
    unfold insertByCreatedDesc
    split
    · simp
    · simp [ih]

/-- Sorting preserves length. -/
lemma length_sortByCreatedDesc (l : List Event) :
    (sortByCreatedDesc l).length = l.length := by
  induction l with
  | nil => rfl
  | cons x xs ih => simp [sortByCreatedDesc, length_insertByCreatedDesc, ih]

/-- Inserting preserves membership. -/
lemma mem_insertByCreatedDesc (a e : Event) (l : List Event) :
    a ∈ insertByCreatedDesc e l ↔ a = e ∨ a ∈ l := by
  induction l with
  | nil => simp [insertByCreatedDesc]
  | cons x xs ih =>
    unfold insertByCreatedDesc
    split
    · simp [or_comm, or_left_comm]
    · simp [ih]
      tauto

/-- Sorting preserves membership. -/
lemma mem_sortByCreatedDesc (a : Event) (l : List Event) :
    a ∈ sortByCreatedDesc l ↔ a ∈ l := by
  induction l with
  | nil => simp [sortByCreatedDesc]
  | cons x xs ih => simp [sortByCreatedDesc, mem_insertByCreatedDesc, ih]

/-- C5: deleteEvent performs no ownership check: its outcome is independent
of the caller identity; on a resolving identifier it removes the whole
Event document (hence all embedded Sessions and Participants, which live
only inside it) and reports success, and it fails with NotFound exactly
when the identifier does not resolve. -/
theorem deleteEvent_ignores_ownership (db : List Event) (id : String)
    (c₁ c₂ : Caller) :
    deleteEvent db id c₁ = deleteEvent db id c₂ ∧
    (findById db id = none →
      deleteEvent db id c₁ = .error (.notFound "Event not found")) ∧
    (∀ e, findById db id = some e →
      deleteEvent db id c₁ = .ok (removeById id db, e) ∧
      (removeById id db).length + 1 = db.length) := by
  refine ⟨rfl, fun h => by simp [deleteEvent, h], fun e h => ?_⟩
  exact ⟨by simp [deleteEvent, h], removeById_length db id e h⟩

theorem deleteEvent_ignores_ownership_w :
    deleteEvent [baseEvent] "e1" callerA = .ok ([], baseEvent) ∧
    deleteEvent [baseEvent] "e1" callerA = deleteEvent [baseEvent] "e1" orgCaller := by
  have h := deleteEvent_ignores_ownership [baseEvent] "e1" callerA orgCaller
  have h2 := (h.2.2 baseEvent (by decide)).1
  exact ⟨h2.trans (by decide), h.1⟩

/-- C6: join on an event whose roster already contains the userId of the caller
fails with AlreadyMember (the duplicate is rejected before any capacity
check or mutation, so the roster is untouched). -/
theorem join_alreadyMember (e : Event) (c : Caller) (now : Int)
    (h : ∃ p ∈ e.participants, p.userId = c.userId) :
    joinEvent e c now = .error (.badRequest "Already joined this event") := by
  obtain ⟨p, hp, hpu⟩ := h
  have hany : e.participants.any (fun q => q.userId == c.userId) = true := by
    rw [List.any_eq_true]
    exact ⟨p, hp, by simpa using hpu⟩
  simp [joinEvent, hany]

theorem join_alreadyMember_w :
    joinEvent halfFullEvent callerA 3
      = .error (.badRequest "Already joined this event") := by
  refine join_alreadyMember halfFullEvent callerA 3
    ⟨{ userId := "userA", userName := "Anonymous", userEmail := "",
       registeredAt := 0 }, ?_, rfl⟩
  simp [halfFullEvent, baseEvent]

/-- C7: leave on an existing Event always succeeds, removes exactly the
participants whose userId matches the caller, and when none match it
reports the unchanged participant count over the unchanged roster. -/
theorem leave_semantics (db : List Event) (id : String) (c : Caller) (now : Int)
    (e : Event) (h : findById db id = some e) :
    leaveEventDb db id c now = .ok (leaveEvent e c now) ∧
    (leaveEvent e c now).1.participants
      = e.participants.filter (fun p => !(p.userId == c.userId)) ∧
    ((∀ p ∈ e.participants, p.userId ≠ c.userId) →
      (leaveEvent e c now).2 = e.participants.length ∧
      (leaveEvent e c now).1.participants = e.participants) := by
  refine ⟨by simp [leaveEventDb, h], rfl, fun hnone => ?_⟩
  have hfil : e.participants.filter (fun p => !(p.userId == c.userId))
      = e.participants := by
    rw [List.filter_eq_self]
    intro p hp
    simpa using hnone p hp
  exact ⟨by simp [leaveEvent, hfil], by simp [leaveEvent, hfil]⟩

theorem leave_semantics_w :
    leaveEventDb [baseEvent] "e1" callerB 4 = .ok (leaveEvent baseEvent callerB 4) ∧
    (leaveEvent baseEvent callerB 4).2 = baseEvent.participants.length := by
  have h := leave_semantics [baseEvent] "e1" callerB 4 baseEvent (by decide)
  exact ⟨h.1, (h.2.2 (by decide)).1⟩

/-- C10: the public-events listing filters on isPublic and a different
organizer, orders newest-created first, and truncates to the first 20:
its length is `min 20` of the match count, so with more than 20 matching
events exactly 20 are returned, and every returned event matches the
filter. -/
theorem listPublicEvents_capped (db : List Event) (cid : String) :
    listPublicEvents db cid
      = (sortByCreatedDesc (db.filter (publicMatch cid))).take 20 ∧
    (listPublicEvents db cid).length
      = min 20 (db.filter (publicMatch cid)).length ∧
    (20 < (db.filter (publicMatch cid)).length →
      (listPublicEvents db cid).length = 20) ∧
    (∀ e ∈ listPublicEvents db cid, publicMatch cid e = true) := by
  have hlen : (listPublicEvents db cid).length
      = min 20 (db.filter (publicMatch cid)).length := by
    simp [listPublicEvents, List.length_take, length_sortByCreatedDesc]
  refine ⟨rfl, hlen, fun h => by omega, fun e he => ?_⟩
  have h1 : e ∈ sortByCreatedDesc (db.filter (publicMatch cid)) :=
    List.take_subset 20 _ he
  have h2 : e ∈ db.filter (publicMatch cid) :=
    (mem_sortByCreatedDesc e _).mp h1
  exact (List.mem_filter.mp h2).2

theorem listPublicEvents_capped_w :
    (listPublicEvents publicDb "me").length = 20 := by
  exact (listPublicEvents_capped publicDb "me").2.2.1 (by decide)

/-- A join by a non-member fails with EventFull exactly when
`capacity ≤ participants.length` (no `capacity > 0` guard exists). -/
lemma join_full_iff (e : Event) (c : Caller) (now : Int)
    (hnew : ∀ p ∈ e.participants, p.userId ≠ c.userId) :
    joinEvent e c now = .error (.badRequest "Event is full") ↔
      e.capacity ≤ (e.participants.length : Int) := by
  have hany : e.participants.any (fun q => q.userId == c.userId) = false := by
    rw [Bool.eq_false_iff]
    intro hc
    rw [List.any_eq_true] at hc
    obtain ⟨p, hp, hpu⟩ := hc
    exact hnew p hp (by simpa using hpu)
  unfold joinEvent
  rw [if_neg (by simp [hany])]
  split_ifs with hcap
  · simp [hcap]
  · simp [hcap]

/-- Sequential joins by pairwise-distinct fresh callers all succeed while
capacity is not exceeded, adding exactly one participant each. -/
lemma joinAll_ok (now : Int) (cs : List Caller) (e : Event)
    (hdist : cs.Pairwise (fun a b => a.userId ≠ b.userId))
    (hnew : ∀ c ∈ cs, ∀ p ∈ e.participants, p.userId ≠ c.userId)
    (hcap : (e.participants.length : Int) + cs.length ≤ e.capacity) :
    ∃ e', joinAll now cs e = .ok e' ∧
      e'.participants.length = e.participants.length + cs.length ∧
      e'.capacity = e.capacity ∧
      (∀ p ∈ e'.participants,
        p ∈ e.participants ∨ ∃ c ∈ cs, p.userId = c.userId) := by
  induction cs generalizing e with
  | nil => exact ⟨e, rfl, by simp, rfl, fun p hp => .inl hp⟩
  | cons c cs ih =>
    have hany : e.participants.any (fun q => q.userId == c.userId) = false := by
      rw [Bool.eq_false_iff]
      intro hc
      rw [List.any_eq_true] at hc
      obtain ⟨p, hp, hpu⟩ := hc
      exact hnew c (by simp) p hp (by simpa using hpu)
    have hlt : ¬ (e.capacity ≤ (e.participants.length : Int)) := by
      simp only [List.length_cons] at hcap
      push_cast at hcap
      omega
    set newP : Participant :=
      { userId := c.userId, userName := c.name.getD "Anonymous",
        userEmail := c.email.getD "", registeredAt := now } with hnewP
    set e₁ : Event :=
      { e with participants := e.participants ++ [newP], updatedAt := now }
      with he₁
    have hj : joinEvent e c now = .ok (e₁, e₁.participants.length) := by
      unfold joinEvent
      rw [if_neg (by simp [hany]), if_neg hlt]
    have hstep : joinAll now (c :: cs) e = joinAll now cs e₁ := by
      simp [joinAll, hj]
    have hd' : cs.Pairwise (fun a b => a.userId ≠ b.userId) :=
      (List.pairwise_cons.mp hdist).2
    have hcfresh : ∀ c' ∈ cs, c.userId ≠ c'.userId :=
      (List.pairwise_cons.mp hdist).1
    have hnew' : ∀ c' ∈ cs, ∀ p ∈ e₁.participants, p.userId ≠ c'.userId := by
      intro c' hc' p hp
      rw [he₁] at hp
      simp only [List.mem_append, List.mem_singleton] at hp
      rcases hp with hp | hp
      · exact hnew c' (by simp [hc']) p hp
      · rw [hp, hnewP]
        exact hcfresh c' hc'
    have hcap' : (e₁.participants.length : Int) + cs.length ≤ e₁.capacity := by
      rw [he₁]
      simp only [List.length_append, List.length_cons, List.length_nil] at hcap ⊢
      push_cast at hcap ⊢
      omega
    obtain ⟨e', h1, h2, h3, h4⟩ := ih e₁ hd' hnew' hcap'
    refine ⟨e', by rwa [hstep], ?_, ?_, ?_⟩
    · rw [h2, he₁]
      simp
      omega
    · rw [h3, he₁]
    · intro p hp
      rcases h4 p hp with hp1 | ⟨c', hc', hpu⟩
      · rw [he₁] at hp1
        simp only [List.mem_append, List.mem_singleton] at hp1
        rcases hp1 with hp1 | hp1
        · exact .inl hp1
        · exact .inr ⟨c, by simp, by rw [hp1, hnewP]⟩
      · exact .inr ⟨c', by simp [hc'], hpu⟩

/-- C1 (amended): join has no `capacity > 0` guard — for a caller not
already on the roster it fails with EventFull exactly when
`participants.length ≥ capacity`, so with the default capacity 0 every
join by a non-member fails with EventFull (capacity 0 behaves as a
zero-capacity event, not as unbounded); the surviving part of the claim
holds: starting from an empty roster with capacity N = number of callers,
N pairwise-distinct joins all succeed and any further join by a fresh
userId fails with EventFull. -/
theorem join_capacity_semantics :
    (∀ (e : Event) (c : Caller) (now : Int),
      (∀ p ∈ e.participants, p.userId ≠ c.userId) →
      (joinEvent e c now = .error (.badRequest "Event is full") ↔
        e.capacity ≤ (e.participants.length : Int))) ∧
    (∀ (e : Event) (cs : List Caller) (now : Int),
      e.participants = [] → e.capacity = (cs.length : Int) →
      cs.Pairwise (fun a b => a.userId ≠ b.userId) →
      ∃ e', joinAll now cs e = .ok e' ∧
        e'.participants.length = cs.length ∧
        ∀ c' : Caller, (∀ p ∈ e'.participants, p.userId ≠ c'.userId) →
          joinEvent e' c' now = .error (.badRequest "Event is full")) := by
  refine ⟨fun e c now hnew => join_full_iff e c now hnew, ?_⟩
  intro e cs now hemp hcap hdist
  obtain ⟨e', h1, h2, h3, -⟩ := joinAll_ok now cs e hdist
    (by intro c hc p hp; rw [hemp] at hp; simp at hp)
    (by rw [hemp, hcap]; simp)
  refine ⟨e', h1, by rw [h2, hemp]; simp, fun c' hc' => ?_⟩
  rw [join_full_iff e' c' now hc', h3, hcap, h2, hemp]
  simp

theorem join_capacity_semantics_w :
    joinEvent baseEvent callerA 3 = .error (.badRequest "Event is full") ∧
    (joinAll 5 [callerA] capOneEvent).isOk = true := by
  constructor
  · exact (join_capacity_semantics.1 baseEvent callerA 3 (by decide)).mpr (by decide)
  · obtain ⟨e', h1, -, -⟩ := join_capacity_semantics.2 capOneEvent [callerA] 5
      (by decide) (by decide) (by simp)
    rw [h1]
    rfl

/-- C1 counterexample: on an event with the default capacity 0 and an
empty roster, a first join by a fresh userId fails with EventFull — the
claim asserts joining an Event with capacity 0 never fails with
EventFull. -/
theorem join_capacityZero_full_cex :
    baseEvent.capacity = 0 ∧ baseEvent.participants = [] ∧
    joinEvent baseEvent callerB 3 = .error (.badRequest "Event is full") := by
  decide

/-- C2 (amended): organizerId is untouched by join, leave, addSession,
updateSession and removeSession, and by updateEvent whenever the patch
body omits organizerId; updateEvent spreads the raw body into the stored
document, so a patch that carries an organizerId field does replace it
(see the counterexample). -/
theorem organizer_preserved_amended :
    (∀ (e : Event) (c : Caller) (now : Int) r,
      joinEvent e c now = .ok r → r.1.organizerId = e.organizerId) ∧
    (∀ (e : Event) (c : Caller) (now : Int),
      (leaveEvent e c now).1.organizerId = e.organizerId) ∧
    (∀ (e : Event) (c : Caller) (i : SessionInput) (fid : String) (now : Int) r,
      addSession e c i fid now = .ok r → r.1.organizerId = e.organizerId) ∧
    (∀ (e : Event) (c : Caller) (sid : String) (p : SessionPatch) (now : Int) r,
      updateSession e c sid p now = .ok r → r.1.organizerId = e.organizerId) ∧
    (∀ (e : Event) (c : Caller) (sid : String) (now : Int) e',
      removeSession e c sid now = .ok e' → e'.organizerId = e.organizerId) ∧
    (∀ (e : Event) (c : Caller) (p : EventPatch) (now : Int) e',
      p.organizerId = none → updateEvent e c p now = .ok e' →
      e'.organizerId = e.organizerId) := by
  refine ⟨?_, ?_, ?_, ?_, ?_, ?_⟩
  · intro e c now r h
    unfold joinEvent at h
    split_ifs at h
    simp only [Except.ok.injEq] at h
    subst h
    rfl
  · intro e c now
    rfl
  · intro e c i fid now r h
    unfold addSession at h
    split_ifs at h
    simp only [Except.ok.injEq] at h
    subst h
    rfl
  · intro e c sid p now r h
    unfold updateSession at h
    split_ifs at h
    split at h
    · simp at h
    · split_ifs at h
      simp only [Except.ok.injEq] at h
      subst h
      rfl
  · intro e c sid now e' h
    unfold removeSession at h
    split_ifs at h
    simp only [Except.ok.injEq] at h
    subst h
    rfl
  · intro e c p now e' hp h
    unfold updateEvent at h
    split_ifs at h
    simp only [Except.ok.injEq] at h
    subst h
    simp [applyEventPatch, hp]

theorem organizer_preserved_amended_w :
    (leaveEvent baseEvent callerA 0).1.organizerId = baseEvent.organizerId ∧
    (applyEventPatch baseEvent {} 1).organizerId = baseEvent.organizerId := by
  constructor
  · exact organizer_preserved_amended.2.1 baseEvent callerA 0
  · exact organizer_preserved_amended.2.2.2.2.2 baseEvent orgCaller {} 1
      (applyEventPatch baseEvent {} 1) rfl (by decide)

/-- C2 counterexample: the organizer updates their own event with a patch
whose body carries organizerId "u2"; the stored organizerId changes from
"org" to "u2" — the claim says no patch field can change it. -/
theorem organizer_patch_cex :
    baseEvent.organizerId = "org" ∧
    (updateEvent baseEvent orgCaller { organizerId := some "u2" } 5).map
      Event.organizerId = .ok "u2" := by
  decide

/-- C3 (amended): updateSession performs no temporal re-validation at all:
it can never answer InvalidInput (a 400), and whenever the organizer
patches an existing session (with a title that stays non-empty) the merge
is applied and saved unconditionally — in particular a patch that makes
endTime < startTime succeeds and persists the violating session (see the
counterexample). -/
theorem updateSession_no_temporal_validation :
    (∀ (e : Event) (c : Caller) (sid : String) (p : SessionPatch)
        (now : Int) (msg : String),
      updateSession e c sid p now ≠ .error (.badRequest msg)) ∧
    (∀ (e : Event) (c : Caller) (sid : String) (p : SessionPatch)
        (now : Int) (s : Session),
      e.organizerId = c.userId → findSession e sid = some s →
      (mergeSession s p).title ≠ "" →
      updateSession e c sid p now
        = .ok ({ e with
                 sessions := replaceFirstSession sid (mergeSession s p) e.sessions,
                 updatedAt := now },
               mergeSession s p)) := by
  constructor
  · intro e c sid p now msg h
    unfold updateSession at h
    split_ifs at h
    · simp at h
    · split at h
      · simp at h
      · split_ifs at h
        simp at h
  · intro e c sid p now s hown hfind htitle
    simp [updateSession, hfind, hown, htitle]

theorem updateSession_no_temporal_validation_w :
    updateSession sessionEvent orgCaller "s1" { endTime := some 5 } 7
      = .ok ({ sessionEvent with
               sessions := replaceFirstSession "s1"
                 (mergeSession talkSession { endTime := some 5 })
                 sessionEvent.sessions,
               updatedAt := 7 },
             mergeSession talkSession { endTime := some 5 }) := by
  exact updateSession_no_temporal_validation.2 sessionEvent orgCaller "s1"
    { endTime := some 5 } 7 talkSession rfl (by decide) (by decide)

/-- C3 counterexample: the stored session has startTime 10; the organizer
patches endTime to 5 and the operation succeeds, returning the session
with endTime 5 < startTime 10 — the claim requires InvalidInput and an
unchanged session. -/
theorem updateSession_end_before_start_cex :
    talkSession.startTime = 10 ∧ talkSession.endTime = 20 ∧
    (updateSession sessionEvent orgCaller "s1" { endTime := some 5 } 7).map
      (fun r => (r.2.startTime, r.2.endTime)) = .ok (10, 5) := by
  decide

/-- C4 (amended): a non-organizer caller cannot mutate sessions and the
event is left untouched, but only addSession answers NotAuthorized (403);
updateSession and removeSession hide the session behind the combined
organizer-scoped lookup and answer NotFound (404,
"Session not found or not authorized") instead. -/
theorem session_ops_nonorganizer
    (e : Event) (c : Caller) (i : SessionInput) (fid sid : String)
    (p : SessionPatch) (now : Int) (h : e.organizerId ≠ c.userId) :
    addSession e c i fid now
      = .error (.notAuthor403 "Not authorized to modify this event") ∧
    updateSession e c sid p now
      = .error (.notFound "Session not found or not authorized") ∧
    removeSession e c sid now
      = .error (.notFound "Session not found or not authorized") := by
  have hb : (e.organizerId == c.userId) = false := by
    simpa using h
  exact ⟨by simp [addSession, hb], by simp [updateSession, hb],
    by simp [removeSession, hb]⟩

theorem session_ops_nonorganizer_w :
    addSession sessionEvent callerA {} "s9" 0
      = .error (.notAuthor403 "Not authorized to modify this event") := by
  exact (session_ops_nonorganizer sessionEvent callerA {} "s9" "s1" {} 0
    (by decide)).1

/-- C4 counterexample: updateSession and removeSession invoked on an
existing session by a non-organizer answer NotFound (404) with the
combined message, not NotAuthorized — the claim says each of the three
operations fails with NotAuthorized. -/
theorem session_ops_nonorganizer_404_cex :
    sessionEvent.organizerId ≠ callerA.userId ∧
    (∃ s, findSession sessionEvent "s1" = some s) ∧
    updateSession sessionEvent callerA "s1" {} 0
      = .error (.notFound "Session not found or not authorized") ∧
    removeSession sessionEvent callerA "s1" 0
      = .error (.notFound "Session not found or not authorized") := by
  refine ⟨by decide, ⟨talkSession, by decide⟩, by decide, by decide⟩

/-- C8 (amended): the identifier of the merged session is
`patch._id`-if-present, else the original: the handler strips only
`eventId` from the body, so a patch without an `_id` field cannot change
which session the record is, but a patch carrying `_id` does overwrite
the identifier (see the counterexample). -/
theorem updateSession_sid_merge
    (e : Event) (c : Caller) (sid : String) (p : SessionPatch) (now : Int)
    (r : Event × Session) (h : updateSession e c sid p now = .ok r) :
    r.2.sid = p.sid.getD sid ∧ (p.sid = none → r.2.sid = sid) := by
  unfold updateSession at h
  split_ifs at h
  split at h
  · simp at h
  · rename_i s heq
    split_ifs at h
    have heq' : List.find? (fun q => q.sid == sid) e.sessions = some s := heq
    have hsid : s.sid = sid := by
      simpa using List.find?_some heq'
    simp only [Except.ok.injEq] at h
    subst h
    exact ⟨by simp [mergeSession, hsid],
      fun hn => by simp [mergeSession, hsid, hn]⟩

theorem updateSession_sid_merge_w :
    talkSession.sid = "s1" := by
  have h := updateSession_sid_merge sessionEvent orgCaller "s1" {} 7
    ({ sessionEvent with sessions := [talkSession], updatedAt := 7 }, talkSession)
    (by decide)
  exact h.2 rfl

/-- C8 counterexample: the organizer patches session "s1" with a body
carrying `_id = "s99"`; the returned (and stored) session's identifier is
"s99" — the claim says merging can never change the identifier. -/
theorem updateSession_sid_patch_cex :
    (updateSession sessionEvent orgCaller "s1" { sid := some "s99" } 7).map
      (fun r => r.2.sid) = .ok "s99" := by
  decide

/-- C9 (amended): addSession applies none of the §4.1 rules: for the
organizer it succeeds exactly when the pushed subdocument survives the
persistence layer's own checks (title present and non-empty, castable
startTime and endTime) — with no ordering constraint, so
endTime < startTime is accepted and appended — and when those checks
fail the handler answers the generic 500 "Failed to create session",
not InvalidInput. -/
theorem addSession_no_spec_validation
    (e : Event) (c : Caller) (i : SessionInput) (fid : String) (now : Int)
    (hown : e.organizerId = c.userId) :
    ((addSession e c i fid now).isOk = true ↔ sessionFieldsOk i = true) ∧
    (sessionFieldsOk i = false →
      addSession e c i fid now = .error (.serverError "Failed to create session")) ∧
    (∀ r, addSession e c i fid now = .ok r →
      r.1.sessions = e.sessions ++ [r.2]) := by
  have hb : (e.organizerId == c.userId) = true := by
    simpa using hown
  refine ⟨?_, ?_, ?_⟩
  · cases hf : sessionFieldsOk i
    · simp [addSession, hb, hf, Except.isOk, Except.toBool]
    · simp [addSession, hb, hf, Except.isOk, Except.toBool]
  · intro hf
    simp [addSession, hb, hf]
  · intro r h
    unfold addSession at h
    split_ifs at h
    simp only [Except.ok.injEq] at h
    subst h
    rfl

theorem addSession_no_spec_validation_w :
    (addSession sessionEvent orgCaller
      { title := some "Intro", startTime := some 1, endTime := some 2 }
      "s9" 3).isOk = true := by
  exact (addSession_no_spec_validation sessionEvent orgCaller
    { title := some "Intro", startTime := some 1, endTime := some 2 }
    "s9" 3 (by decide)).1.mpr (by decide)

/-- C9 counterexample: the organizer adds a session whose endTime 10
precedes its startTime 20 and the operation succeeds and appends it; and
a payload with a missing title is answered with the generic 500, not
InvalidInput — the claim requires §4.1 validation with InvalidInput. -/
theorem addSession_end_before_start_cex :
    (addSession sessionEvent orgCaller
      { title := some "Late", startTime := some 20, endTime := some 10 }
      "s9" 3).map (fun r => (r.2.startTime, r.2.endTime)) = .ok (20, 10) ∧
    addSession sessionEvent orgCaller
      { startTime := some 1, endTime := some 2 } "s9" 3
      = .error (.serverError "Failed to create session") := by
  decide

end Eventara
